import Mathlib

/-!
Formal model of the configuration-bootstrap tool `tools/config_tempest.py`
(the `my-tempest` repository): the priority-tracking configuration store
`TempestConf`, CLI override parsing, the find-or-create reconciliation
routines for users/tenants/roles, flavors and networks, and discovered-service
annotation.  Python strings are Lean `String`s, Python `None`-able strings are
`Option String` (with Python truthiness: `None` and `""` are falsy), remote
services are explicit state records, and raised exceptions are `Except`
errors.  Remote create calls whose concrete response depends on the server
are parameterised by that response.
-/

set_option autoImplicit false

/-- Python truthiness of an optional string: `None` and `""` are falsy. -/
def optTruthy : Option String → Bool
  | none => false
  | some s => s ≠ ""

/-- Python `str(bool)`: `"True"` or `"False"`. -/
def pyStr (b : Bool) : String := if b then "True" else "False"

/-!
## The configuration store

`TempestConf` subclasses `ConfigParser.SafeConfigParser` with
`optionxform = str` (keys keep their case) and a set `priority_sectionkeys`
of pinned `(section, key)` pairs.  We model the parser state as the list of
sections plus an association list from `(section, key)` to the stored value
(insertion order kept, one entry per pair), and the pin set as a
duplicate-free list.
-/

structure TempestConf where
  sections : List String
  values : List ((String × String) × String)
  priority_sectionkeys : List (String × String)
deriving Repr, DecidableEq

/-- The empty configuration (a freshly constructed `TempestConf()`). -/
def TempestConf.empty : TempestConf := ⟨[], [], []⟩

/-- Store a value in the association list, overwriting the entry for the same
`(section, key)` if present (this is what `RawConfigParser.set` does to the
per-section dictionary). -/
def setValue (vs : List ((String × String) × String)) (sk : String × String)
    (v : String) : List ((String × String) × String) :=
  match vs with
  | [] => [(sk, v)]
  | (sk', v') :: rest =>
      if sk' = sk then (sk, v) :: rest else (sk', v') :: setValue rest sk v

/-- `ConfigParser.has_section`. -/
def TempestConf.hasSection (c : TempestConf) (s : String) : Bool :=
  c.sections.contains s

/-- The value currently stored for `(section, key)`, if any. -/
def TempestConf.lookup (c : TempestConf) (sec key : String) : Option String :=
  (c.values.find? (fun p => p.1 = (sec, key))).map (·.2)

/-- `TempestConf.set(section, key, value, priority=False)`.

Creates the section if absent; if `priority` is false and `(section, key)` is
already pinned, the write is rejected and `False` is returned; otherwise the
value is stored (pinning the pair first when `priority` is true) and `True`
is returned.  The returned pair is `(applied, updated store)`. -/
def TempestConf.set (c : TempestConf) (sec key value : String)
    (priority : Bool := false) : Bool × TempestConf :=
  let c := if c.hasSection sec then c
           else { c with sections := c.sections ++ [sec] }
  if !priority && c.priority_sectionkeys.contains (sec, key) then
    (false, c)
  else
    let c := if priority then
        { c with priority_sectionkeys :=
            if c.priority_sectionkeys.contains (sec, key) then
              c.priority_sectionkeys
            else c.priority_sectionkeys ++ [(sec, key)] }
      else c
    (true, { c with values := setValue c.values (sec, key) value })

/-- One `set` call: section, key, value and the priority flag. -/
structure SetOp where
  sec : String
  key : String
  value : String
  priority : Bool
deriving Repr, DecidableEq

/-- Run a sequence of `set` calls against a store. -/
def runSets (c : TempestConf) : List SetOp → TempestConf
  | [] => c
  | op :: ops => runSets (c.set op.sec op.key op.value op.priority).2 ops

/-!
## `ConfigParser` reads

`TempestConf` does not override `get`, so reads go through Python 2's
`ConfigParser.get(section, option, raw=False, vars=None)`: a missing section
raises `NoSectionError`, a missing option raises `NoOptionError`, and the
third positional argument is the `raw` interpolation flag.  The values this
tool stores never contain `%`, so interpolation returns them unchanged and
`raw` does not affect the result.
-/

inductive ConfError where
  | noSection (sec : String)
  | noOption (sec key : String)
deriving Repr, DecidableEq

/-- `ConfigParser.get(section, option, raw)`.  `raw` only toggles
interpolation, which is the identity on the percent-free values this tool
stores. -/
def TempestConf.getRaw (c : TempestConf) (sec key : String) (raw : Bool) :
    Except ConfError String :=
  if !(c.hasSection sec) then .error (.noSection sec)
  else
    match c.lookup sec key with
    | some v => .ok v
    | none => .error (.noOption sec key)

/-- The call shape `conf.get(section, key, third)` used at
`ClientManager.__init__` (e.g. `conf.get('identity', 'username', 'demo')`):
the third positional argument lands on `ConfigParser.get`'s `raw` parameter,
whose Python truthiness is `third != ""`. -/
def TempestConf.getWithThird (c : TempestConf) (sec key third : String) :
    Except ConfError String :=
  c.getRaw sec key (third ≠ "")

/-!
## CLI override parsing (`parse_overrides`) and argument validation

`parse_overrides` rejects odd-length input, then walks the list two elements
at a time, splitting each key on `'.'` (Python's `str.split('.')`, every
occurrence, empty parts kept) and requiring exactly two parts.
-/

/-- Python's `str.split(sep)` for a one-character separator, on the
character list: splits at every occurrence, keeping empty parts
(`"".split('.') == ['']`, `"a..b".split('.') == ['a', '', 'b']`). -/
def splitOnChar (c : Char) : List Char → List (List Char)
  | [] => [[]]
  | x :: xs =>
      let r := splitOnChar c xs
      if x = c then [] :: r
      else
        match r with
        | y :: ys => (x :: y) :: ys
        | [] => [[x]]

/-- `s.split('.')` on a Lean `String`. -/
def pySplitDot (s : String) : List String :=
  (splitOnChar '.' s.data).map (fun l => ⟨l⟩)

inductive OverridesError where
  /-- "An odd number of override options was found." -/
  | oddLength
  /-- "Missing dot. ... but got '<key> <value>'." -/
  | missingDot (key value : String)
  /-- `overrides[i + 1]` out of range; unreachable behind the even-length
  check. -/
  | indexError
deriving Repr, DecidableEq

/-- The `while i < len(overrides)` loop of `parse_overrides`. -/
def parseOverridesLoop : List String → Except OverridesError (List (String × String × String))
  | [] => .ok []
  | [_] => .error .indexError
  | k :: v :: rest =>
      match pySplitDot k with
      | [sec, key] =>
          match parseOverridesLoop rest with
          | .error e => .error e
          | .ok tail => .ok ((sec, key, v) :: tail)
      | _ => .error (.missingDot k v)

/-- `parse_overrides(overrides)`. -/
def parseOverrides (overrides : List String) :
    Except OverridesError (List (String × String × String)) :=
  if overrides.length % 2 ≠ 0 then .error .oddLength
  else parseOverridesLoop overrides

inductive ArgError where
  /-- "Options '--create' and '--non-admin' cannot be used together". -/
  | createNonAdmin
  | usage (e : OverridesError)
deriving Repr, DecidableEq

/-- The validation part of `parse_arguments`, after `argparse` has bound the
flags: the `--create`/`--non-admin` exclusion check runs first, then the
positional overrides are parsed. -/
def parseArgumentsCheck (create nonAdmin : Bool) (overrides : List String) :
    Except ArgError (List (String × String × String)) :=
  if create && nonAdmin then .error .createNonAdmin
  else
    match parseOverrides overrides with
    | .error e => .error (.usage e)
    | .ok o => .ok o

/-- The remote services `main` can contact; every remote call happens in the
phases that follow argument parsing. -/
inductive RemoteCall where
  | keystone
  | nova
  | glance
  | neutron
deriving Repr, DecidableEq

/-- The shape of `main`: `parse_arguments()` runs first and any exception it
raises aborts the run, so the remaining phases — abstracted here as an
arbitrary function `phases` from the parsed overrides to the remote calls it
performs — are reached only on successful parsing. -/
def runMain (create nonAdmin : Bool) (overrides : List String)
    (phases : List (String × String × String) → List RemoteCall) :
    Except ArgError (List RemoteCall) :=
  match parseArgumentsCheck create nonAdmin overrides with
  | .error e => .error e
  | .ok o => .ok (phases o)

/-!
## Keystone identity model

State of the identity service as seen through `keystoneclient` in
`create_user_with_tenant` and `give_role_to_user`: tenants, users, roles,
and role grants `(tenant_id, user_id, role_id)`.  `find(name=...)` returns
the first resource with that name or raises `NotFound`; `create` raises
`Conflict` when a resource with the same name already exists (role grants
conflict when the grant is already present).
-/

structure KTenant where
  id : String
  name : String
  description : String
deriving Repr, DecidableEq

structure KUser where
  id : String
  name : String
  password : String
  email : String
deriving Repr, DecidableEq

structure KRole where
  id : String
  name : String
deriving Repr, DecidableEq

structure IdentityState where
  tenants : List KTenant
  users : List KUser
  roles : List KRole
  grants : List (String × String × String)
deriving Repr, DecidableEq

inductive KError where
  | notFound
  | conflict
deriving Repr, DecidableEq

/-- `identity_client.tenants.create(name, description)`; `freshId` is the id
the server assigns to a newly created tenant. -/
def tenantsCreate (st : IdentityState) (name desc freshId : String) :
    Except KError (IdentityState × KTenant) :=
  if st.tenants.any (fun t => t.name = name) then .error .conflict
  else
    let t : KTenant := ⟨freshId, name, desc⟩
    .ok ({ st with tenants := st.tenants ++ [t] }, t)

/-- `identity_client.tenants.find(name=...)`. -/
def tenantsFind (st : IdentityState) (name : String) : Except KError KTenant :=
  match st.tenants.find? (fun t => t.name = name) with
  | some t => .ok t
  | none => .error .notFound

/-- `identity_client.users.create(name=..., password=..., email=...,
tenant_id=...)`; `freshId` is the id the server assigns. -/
def usersCreate (st : IdentityState) (name password email tenant_id freshId : String) :
    Except KError (IdentityState × KUser) :=
  if st.users.any (fun u => u.name = name) then .error .conflict
  else
    let u : KUser := ⟨freshId, name, password, email⟩
    let _ := tenant_id
    .ok ({ st with users := st.users ++ [u] }, u)

/-- `identity_client.users.find(name=...)`. -/
def usersFind (st : IdentityState) (name : String) : Except KError KUser :=
  match st.users.find? (fun u => u.name = name) with
  | some u => .ok u
  | none => .error .notFound

/-- `identity_client.users.update_password(user_id, password)`. -/
def updatePassword (st : IdentityState) (user_id password : String) : IdentityState :=
  { st with
    users := st.users.map (fun u =>
      if u.id = user_id then { u with password := password } else u) }

/-- `identity_client.roles.find(name=...)`. -/
def rolesFind (st : IdentityState) (name : String) : Except KError KRole :=
  match st.roles.find? (fun r => r.name = name) with
  | some r => .ok r
  | none => .error .notFound

/-- `identity_client.tenants.add_user(tenant_id, user_id, role_id)`:
`Conflict` when the user already holds the role in the tenant. -/
def tenantsAddUser (st : IdentityState) (tenant_id user_id role_id : String) :
    Except KError IdentityState :=
  if (tenant_id, user_id, role_id) ∈ st.grants then .error .conflict
  else .ok { st with grants := st.grants ++ [(tenant_id, user_id, role_id)] }

/-- `create_user_with_tenant(identity_client, username, password,
tenant_name)`: create the tenant (swallowing `Conflict`), look the tenant up
by name, create the user (on `Conflict`, look the user up by name and update
its password).  `freshTenantId`/`freshUserId` are the server-assigned ids
used when the creates succeed. -/
def createUserWithTenant (st : IdentityState)
    (username password tenant_name freshTenantId freshUserId : String) :
    Except KError IdentityState :=
  let tenant_description := "Tenant for Tempest " ++ username ++ " user"
  let email := username ++ "@test.com"
  let afterTenant : Except KError IdentityState :=
    match tenantsCreate st tenant_name tenant_description freshTenantId with
    | .error .conflict => .ok st
    | .error e => .error e
    | .ok (st', _) => .ok st'
  match afterTenant with
  | .error e => .error e
  | .ok st =>
      match tenantsFind st tenant_name with
      | .error e => .error e
      | .ok tenant =>
          match usersCreate st username password email tenant.id freshUserId with
          | .error .conflict =>
              match usersFind st username with
              | .error e => .error e
              | .ok user => .ok (updatePassword st user.id password)
          | .error e => .error e
          | .ok (st', _) => .ok st'

/-- `give_role_to_user(identity_client, username, tenant_name, role_name,
role_required=True)`: find user and tenant (a `NotFound` here propagates),
find the role — a `NotFound` is fatal only when `role_required` — then add
the grant, swallowing `Conflict`. -/
def giveRoleToUser (st : IdentityState) (username tenant_name role_name : String)
    (role_required : Bool := true) : Except KError IdentityState :=
  match usersFind st username with
  | .error e => .error e
  | .ok user =>
      match tenantsFind st tenant_name with
      | .error e => .error e
      | .ok tenant =>
          match rolesFind st role_name with
          | .error .notFound =>
              if role_required then .error .notFound else .ok st
          | .error e => .error e
          | .ok role =>
              match tenantsAddUser st tenant.id user.id role.id with
              | .error .conflict => .ok st
              | .error e => .error e
              | .ok st' => .ok st'

/-!
## Nova flavor model

`find_or_create_flavor` looks the flavor up by id (`flavors.findall(id=...)`,
first hit wins), then by name, raises when nothing was found and creation is
disallowed, and otherwise calls `flavors.create(name, ram, vcpus, disk)` —
with no `Conflict` handling around that call.  The create call's response is
a parameter (`CreateResp`): the flavor the server returns, or a `Conflict`
error.  The second component of the result records whether a creation call
was issued.
-/

structure Flavor where
  id : String
  name : String
deriving Repr, DecidableEq

/-- `compute_client.flavors.findall(id=...)`. -/
def flavorsFindallById (fs : List Flavor) (i : String) : List Flavor :=
  fs.filter (fun f => f.id = i)

/-- `compute_client.flavors.findall(name=...)`. -/
def flavorsFindallByName (fs : List Flavor) (n : String) : List Flavor :=
  fs.filter (fun f => f.name = n)

inductive CreateResp where
  | ok (f : Flavor)
  | conflict
deriving Repr, DecidableEq

inductive FlavorErr where
  /-- "Flavor '<name>' not found, but resource creation isn't allowed." -/
  | resourceMissing (name : String)
  /-- A `Conflict` raised by `flavors.create`, unhandled in the routine. -/
  | conflict
deriving Repr, DecidableEq

/-- `find_or_create_flavor(compute_client, flavor_id, flavor_name,
allow_creation, ram, vcpus, disk)`.  `ram`, `vcpus` and `disk` are passed to
the create call, whose response is `createResp`.  Returns the resolved
flavor id and whether a creation call was issued. -/
def findOrCreateFlavor (fs : List Flavor) (flavor_id : Option String)
    (flavor_name : String) (allow_creation : Bool)
    (ram vcpus disk : Nat) (createResp : CreateResp) :
    Except FlavorErr (String × Bool) :=
  let _ := (ram, vcpus, disk)
  let byId : Option Flavor :=
    if optTruthy flavor_id then
      (flavorsFindallById fs (flavor_id.getD "")).head?
    else none
  let flavor : Option Flavor :=
    match byId with
    | some f => some f
    | none =>
        if flavor_name ≠ "" then (flavorsFindallByName fs flavor_name).head?
        else none
  match flavor with
  | some f => .ok (f.id, false)
  | none =>
      if !allow_creation then .error (.resourceMissing flavor_name)
      else
        match createResp with
        | .conflict => .error .conflict
        | .ok f => .ok (f.id, true)

/-!
## Neutron network model

The `has_neutron` branch of `create_tempest_networks`: with a user-supplied
network id, verify it exists in `client.list_networks()` (fatal otherwise);
without one, pick the first network with a truthy `'router:external'` and a
non-empty `'subnets'` list; otherwise create a network and a subnet when
`create_network` is set, else fail.  Finally `public_network_id` is written
into the conf, and a falsy label makes the trailing `fixed_network_name`
check fatal.  Because the Python conf is mutated in place, the model returns
the conf (and the list of creation calls issued) alongside the optional
error. -/

structure NeutronNetwork where
  id : String
  name : String
  router_external : Bool
  subnets : List String
deriving Repr, DecidableEq

inductive NetCall where
  | createNetwork
  | createSubnet
deriving Repr, DecidableEq

inductive NetErr where
  /-- "provided network id: ... was not found." -/
  | providedNetworkNotFound (pid : String)
  /-- "No network available. please use --create". -/
  | noNetworkAvailable
  /-- "fixed_network_name could not be discovered and must be specified". -/
  | fixedNetworkMissing
deriving Repr, DecidableEq

/-- The tail of `create_tempest_networks` once `public_network_id` and
`label` are resolved in the neutron branch: write `public_network_id`, then
write `fixed_network_name` when the label is truthy, else raise. -/
def finishNeutronNetworks (conf : TempestConf) (pid label : String)
    (calls : List NetCall) : Option NetErr × TempestConf × List NetCall :=
  let conf := (conf.set "network" "public_network_id" pid).2
  if label ≠ "" then
    (none, (conf.set "compute" "fixed_network_name" label).2, calls)
  else
    (some .fixedNetworkMissing, conf, calls)

/-- The `has_neutron` branch of `create_tempest_networks(clients, conf,
has_neutron, create_network, public_network_id, ...)`.  `networks` is what
`client.list_networks()` returns; `createdNet` is the network the server
returns from `create_network` when the creation path runs (its subnet call
is recorded but its body elided).  The result is the optional raised error,
the conf after in-place mutation, and the creation calls issued. -/
def createTempestNetworksNeutron (conf : TempestConf)
    (networks : List NeutronNetwork) (create_network : Bool)
    (public_network_id : Option String) (createdNet : NeutronNetwork) :
    Option NetErr × TempestConf × List NetCall :=
  if optTruthy public_network_id then
    let pid := public_network_id.getD ""
    match networks.find? (fun n => n.id = pid) with
    | some n => finishNeutronNetworks conf pid n.name []
    | none => (some (.providedNetworkNotFound pid), conf, [])
  else
    match networks.find? (fun n => n.router_external && !n.subnets.isEmpty) with
    | some n => finishNeutronNetworks conf n.id n.name []
    | none =>
        if create_network then
          finishNeutronNetworks conf createdNet.id createdNet.name
            [.createNetwork, .createSubnet]
        else
          (some .noNetworkAvailable, conf, [])

/-!
## Discovered-service annotation (`configure_discovered_services`)

`services` is the discovery result: a mapping from service name to its
`'extensions'` and `'versions'` entries, modelled as an association list.
Availability and extension annotation tolerate absent services; the version
loop indexes `services[service]` unconditionally, so an absent
`SERVICE_VERSIONS` service raises `KeyError`.
-/

structure ServiceInfo where
  extensions : List String
  versions : List String
deriving Repr, DecidableEq

/-- Python `services[name]` presence / lookup. -/
def lookupService (services : List (String × ServiceInfo)) (name : String) :
    Option ServiceInfo :=
  (services.find? (fun p => p.1 = name)).map (·.2)

/-- The `SERVICE_NAMES` table (service → codename), in source order. -/
def SERVICE_NAMES : List (String × String) :=
  [("baremetal", "ironic"), ("compute", "nova"), ("database", "trove"),
   ("data_processing", "sahara"), ("image", "glance"), ("network", "neutron"),
   ("object-store", "swift"), ("orchestration", "heat"),
   ("telemetry", "ceilometer"), ("volume", "cinder"), ("queuing", "marconi")]

/-- The `SERVICE_VERSIONS` table. -/
def SERVICE_VERSIONS : List (String × List String) :=
  [("image", ["v1", "v2"]), ("identity", ["v2", "v3"]),
   ("volume", ["v1", "v2"]), ("compute", ["v3"])]

/-- The `SERVICE_EXTENSION_KEY` table. -/
def SERVICE_EXTENSION_KEY : List (String × String) :=
  [("compute", "discoverable_apis"), ("object-storage", "discoverable_apis"),
   ("network", "api_extensions"), ("volume", "api_extensions")]

/-- Does `needle` start `hay` (used for Python's `in` on strings)? -/
def charsStartWith : List Char → List Char → Bool
  | [], _ => true
  | _ :: _, [] => false
  | a :: as, b :: bs => a = b && charsStartWith as bs

/-- Does `needle` occur contiguously in `hay`? -/
def charsContain (needle : List Char) : List Char → Bool
  | [] => needle.isEmpty
  | b :: bs => charsStartWith needle (b :: bs) || charsContain needle bs

/-- Python's `needle in hay` on strings: substring containment. -/
def pyInStr (needle hay : String) : Bool :=
  charsContain needle.data hay.data

/-- Python's `','.join(items)`. -/
def joinComma : List String → String
  | [] => ""
  | [x] => x
  | x :: xs => x ++ "," ++ joinComma xs

/-- The service-availability loop: for each `(service, codename)` of
`SERVICE_NAMES` (with the telemetry→metering transition special case), set
`[service_available] codename` to whether the service was discovered. -/
def setServiceAvailability (conf : TempestConf)
    (services : List (String × ServiceInfo)) : TempestConf :=
  SERVICE_NAMES.foldl
    (fun conf p =>
      let (service, codename) := p
      let service :=
        if service = "telemetry" && (lookupService services "metering").isSome
        then "metering" else service
      (conf.set "service_available" codename
        (pyStr (lookupService services service).isSome)).2)
    conf

/-- The service-extension loop: tolerant of absent services. -/
def setServiceExtensions (conf : TempestConf)
    (services : List (String × ServiceInfo)) : TempestConf :=
  SERVICE_EXTENSION_KEY.foldl
    (fun conf p =>
      let (service, ext_key) := p
      match lookupService services service with
      | some info =>
          (conf.set (service ++ "-feature-enabled") ext_key
            (joinComma info.extensions)).2
      | none => conf)
    conf

inductive PyKeyError where
  | keyError (key : String)
deriving Repr, DecidableEq

/-- The body of the supported-version loop, walking the `SERVICE_VERSIONS`
entries: `services[service]['versions']` is indexed unconditionally, so an
absent service raises `KeyError`; each configured version `v` is marked
supported when `v` occurs as a substring of some discovered version
string. -/
def setServiceVersionsLoop (services : List (String × ServiceInfo)) :
    TempestConf → List (String × List String) → Except PyKeyError TempestConf
  | conf, [] => .ok conf
  | conf, (service, versions) :: rest =>
      match lookupService services service with
      | none => .error (.keyError service)
      | some info =>
          let sec := service ++ "-feature-enabled"
          setServiceVersionsLoop services
            (versions.foldl
              (fun conf version =>
                let is_supported := info.versions.any (fun item => pyInStr version item)
                (conf.set sec ("api_" ++ version) (pyStr is_supported)).2)
              conf)
            rest

/-- The supported-version loop over the whole `SERVICE_VERSIONS` table. -/
def setServiceVersions (conf : TempestConf)
    (services : List (String × ServiceInfo)) : Except PyKeyError TempestConf :=
  setServiceVersionsLoop services conf SERVICE_VERSIONS

/-- `configure_discovered_services(conf, services)`. -/
def configureDiscoveredServices (conf : TempestConf)
    (services : List (String × ServiceInfo)) : Except PyKeyError TempestConf :=
  let conf := setServiceAvailability conf services
  let conf := setServiceExtensions conf services
  setServiceVersions conf services

/-!
## Concrete fixtures used by witnesses and counterexamples
-/

/-- A store holding only `[identity] uri`, written non-priority. -/
def confC3 : TempestConf :=
  (TempestConf.empty.set "identity" "uri" "http://192.0.2.1:5000/v2.0").2

/-- An identity state with tenant `demo`, users `alice` and `bob`, role
`admin`, and `alice` already granted `admin` in `demo`. -/
def stIdentityW : IdentityState :=
  { tenants := [⟨"t1", "demo", "Tenant for Tempest alice user"⟩],
    users := [⟨"u1", "alice", "pw", "alice@test.com"⟩,
              ⟨"u2", "bob", "pw2", "bob@test.com"⟩],
    roles := [⟨"r1", "admin"⟩],
    grants := [("t1", "u1", "r1")] }

/-- A network listing with one internal and one external network. -/
def netsW : List NeutronNetwork :=
  [⟨"n1", "internal", false, ["s0"]⟩, ⟨"n2", "public", true, ["s1"]⟩]

/-- The network a `create_network` call would return (never used on the
auto-discovery path). -/
def netCreatedW : NeutronNetwork := ⟨"n9", "created", true, []⟩

/-- A discovery result containing all four `SERVICE_VERSIONS` services. -/
def servicesAllW : List (String × ServiceInfo) :=
  [("image", ⟨[], ["v1.0", "v2.0"]⟩), ("identity", ⟨[], ["v2.0"]⟩),
   ("volume", ⟨["ext1"], ["v1.0"]⟩), ("compute", ⟨["os-ext"], ["v2.0"]⟩)]

/-- The same discovery result with the `compute` service missing. -/
def servicesNoComputeW : List (String × ServiceInfo) :=
  [("image", ⟨[], ["v1.0", "v2.0"]⟩), ("identity", ⟨[], ["v2.0"]⟩),
   ("volume", ⟨["ext1"], ["v1.0"]⟩)]

/-!
## Theorems
-/

theorem setValue_lookup_self (vs : List ((String × String) × String))
    (sk : String × String) (v : String) :
    ((setValue vs sk v).find? (fun p => p.1 = sk)).map (·.2) = some v := by
  induction vs with
  | nil => simp [setValue]
  | cons hd tl ih =>
      obtain ⟨sk', v'⟩ := hd
      by_cases h : sk' = sk
      · simp [setValue, h]
      · simp [setValue, h, ih]

theorem pins_set_cases (c : TempestConf) (sec key value : String) (pr : Bool) :
    ((c.set sec key value pr).2).priority_sectionkeys = c.priority_sectionkeys ∨
    ((c.set sec key value pr).2).priority_sectionkeys
      = c.priority_sectionkeys ++ [(sec, key)] := by
  unfold TempestConf.set
  by_cases hs : c.hasSection sec = true <;> cases pr <;> simp [hs] <;>
    first
    | exact em _
    | (split <;> simp)

theorem pins_mono_set (c : TempestConf) (sec key value : String) (pr : Bool)
    (p : String × String) (hp : p ∈ c.priority_sectionkeys) :
    p ∈ ((c.set sec key value pr).2).priority_sectionkeys := by
  rcases pins_set_cases c sec key value pr with h | h <;> rw [h] <;>
    simp [hp]

theorem pins_mono_runSets (ops : List SetOp) (c : TempestConf)
    (p : String × String) (hp : p ∈ c.priority_sectionkeys) :
    p ∈ (runSets c ops).priority_sectionkeys := by
  induction ops generalizing c with
  | nil => simpa [runSets] using hp
  | cons op ops ih =>
      exact ih _ (pins_mono_set c op.sec op.key op.value op.priority p hp)

theorem pin_after_priority_set (c : TempestConf) (sec key value : String) :
    (sec, key) ∈ ((c.set sec key value true).2).priority_sectionkeys := by
  unfold TempestConf.set
  by_cases hs : c.hasSection sec = true <;> simp [hs] <;>
    split <;> simp_all

/-- A non-priority `set` on a pinned pair is rejected: it returns `false` and
leaves the stored value for that pair unchanged. -/
theorem set_nonpriority_pinned (c : TempestConf) (sec key value : String)
    (hpin : (sec, key) ∈ c.priority_sectionkeys) :
    (c.set sec key value false).1 = false ∧
      ((c.set sec key value false).2).lookup sec key = c.lookup sec key := by
  unfold TempestConf.set
  by_cases hs : c.hasSection sec = true <;>
    simp [hs, hpin, TempestConf.lookup]

/-- A priority `set` always applies: it returns `true` and afterwards the
stored value for the pair is the new value. -/
theorem set_priority_applies (c : TempestConf) (sec key value : String) :
    (c.set sec key value true).1 = true ∧
      ((c.set sec key value true).2).lookup sec key = some value := by
  unfold TempestConf.set
  by_cases hs : c.hasSection sec = true <;>
    simp [hs, TempestConf.lookup, setValue_lookup_self]

/-- C1: after a `(section, key)` pair has been written with `priority=true`,
and after any further sequence of `set` calls, a non-priority `set` on that
pair returns `applied=false` and leaves the stored value unchanged, while a
priority `set` on it returns `applied=true` and stores the new value. -/
theorem C1_priority_pin_semantics (c : TempestConf) (sec key v : String)
    (ops : List SetOp) (v' : String) :
    (c.set sec key v true).1 = true ∧
    ((runSets (c.set sec key v true).2 ops).set sec key v' false).1 = false ∧
    (((runSets (c.set sec key v true).2 ops).set sec key v' false).2).lookup sec key
      = (runSets (c.set sec key v true).2 ops).lookup sec key ∧
    ((runSets (c.set sec key v true).2 ops).set sec key v' true).1 = true ∧
    (((runSets (c.set sec key v true).2 ops).set sec key v' true).2).lookup sec key
      = some v' := by
  have hpin : (sec, key) ∈ (runSets (c.set sec key v true).2 ops).priority_sectionkeys :=
    pins_mono_runSets ops _ _ (pin_after_priority_set c sec key v)
  exact ⟨(set_priority_applies c sec key v).1,
    (set_nonpriority_pinned _ _ _ _ hpin).1,
    (set_nonpriority_pinned _ _ _ _ hpin).2,
    (set_priority_applies _ _ _ _).1,
    (set_priority_applies _ _ _ _).2⟩

/-- C3 (code evaluation at the failing input): in a store holding only
`[identity] uri`, the call `conf.get('identity', 'uri', 'x')` returns the
stored value, but `conf.get('identity', 'username', 'demo')` raises
`NoOptionError` instead of returning the default `'demo'`, because the third
positional argument of `ConfigParser.get` is the `raw` flag, not a
default. -/
theorem C3_get_third_arg_is_raw_not_default :
    confC3.getWithThird "identity" "uri" "x" = .ok "http://192.0.2.1:5000/v2.0" ∧
    confC3.getWithThird "identity" "username" "demo" =
      .error (.noOption "identity" "username") := by
  constructor <;> rfl

/-!
### Override parsing (C4)
-/

theorem splitOnChar_ne_nil (c : Char) (l : List Char) : splitOnChar c l ≠ [] := by
  cases l with
  | nil => simp [splitOnChar]
  | cons x xs =>
      by_cases h : x = c
      · simp [splitOnChar, h]
      · simp only [splitOnChar, h, if_false]
        rcases splitOnChar c xs with _ | ⟨y, ys⟩ <;> simp

theorem splitOnChar_length (c : Char) (l : List Char) :
    (splitOnChar c l).length = l.count c + 1 := by
  induction l with
  | nil => simp [splitOnChar]
  | cons x xs ih =>
      by_cases h : x = c
      · simp [splitOnChar, h, ih, List.count_cons]
      · simp only [splitOnChar, h, if_false]
        rcases hr : splitOnChar c xs with _ | ⟨y, ys⟩
        · exact absurd hr (splitOnChar_ne_nil c xs)
        · have := ih
          rw [hr] at this
          simp only [List.length_cons] at this ⊢
          have hcount : (x :: xs).count c = xs.count c := by
            simp [List.count_cons, h]
          omega

theorem pySplitDot_length (s : String) :
    (pySplitDot s).length = s.data.count '.' + 1 := by
  simp [pySplitDot, splitOnChar_length]

/-- Two-step list induction matching `parse_overrides`'s pairwise walk. -/
theorem list_pair_induction {α : Type} {P : List α → Prop} (h0 : P [])
    (h1 : ∀ a, P [a]) (h2 : ∀ a b l, P l → P (a :: b :: l)) :
    ∀ l, P l
  | [] => h0
  | [a] => h1 a
  | a :: b :: l => h2 a b l (list_pair_induction h0 h1 h2 l)

theorem parseOverridesLoop_missingDot (l : List String) :
    ∀ (i : Nat) (s : String), l.length % 2 = 0 → l[i]? = some s →
      i % 2 = 0 → (pySplitDot s).length ≠ 2 →
      ∃ k v, parseOverridesLoop l = .error (.missingDot k v) := by
  induction l using list_pair_induction with
  | h0 => intro i s _ hi; simp at hi
  | h1 a => intro i s hlen; simp at hlen
  | h2 a b l ih =>
      intro i s hlen hi hpar hbad
      have hlen' : l.length % 2 = 0 := by
        simp only [List.length_cons] at hlen
        omega
      match i with
      | 0 =>
          simp only [List.getElem?_cons_zero, Option.some.injEq] at hi
          subst hi
          rcases hsplit : pySplitDot a with _ | ⟨x, _ | ⟨y, _ | ⟨z, rest⟩⟩⟩
          · exact ⟨a, b, by simp [parseOverridesLoop, hsplit]⟩
          · exact ⟨a, b, by simp [parseOverridesLoop, hsplit]⟩
          · exact absurd (by rw [hsplit]; rfl) hbad
          · exact ⟨a, b, by simp [parseOverridesLoop, hsplit]⟩
      | 1 => simp at hpar
      | (j + 2) =>
          simp only [List.getElem?_cons_succ] at hi
          have hj : j % 2 = 0 := by omega
          obtain ⟨k, v, hkv⟩ := ih j s hlen' hi hj hbad
          rcases hsplit : pySplitDot a with _ | ⟨x, _ | ⟨y, _ | ⟨z, rest⟩⟩⟩
          · exact ⟨a, b, by simp [parseOverridesLoop, hsplit]⟩
          · exact ⟨a, b, by simp [parseOverridesLoop, hsplit]⟩
          · exact ⟨k, v, by simp [parseOverridesLoop, hsplit, hkv]⟩
          · exact ⟨a, b, by simp [parseOverridesLoop, hsplit]⟩

/-- C4: `parse_overrides` maps `["identity.username", "alice",
"identity.password", "secret"]` to exactly the two expected triples, rejects
any odd-length input with the odd-length usage error, and rejects any
even-length input one of whose key elements (the even positions) does not
contain exactly one `'.'`. -/
theorem C4_parse_overrides :
    parseOverrides ["identity.username", "alice", "identity.password", "secret"] =
      .ok [("identity", "username", "alice"), ("identity", "password", "secret")] ∧
    (∀ l : List String, l.length % 2 = 1 → parseOverrides l = .error .oddLength) ∧
    (∀ (l : List String) (i : Nat) (s : String), l.length % 2 = 0 →
      l[i]? = some s → i % 2 = 0 → s.data.count '.' ≠ 1 →
      ∃ k v, parseOverrides l = .error (.missingDot k v)) := by
  refine ⟨rfl, ?_, ?_⟩
  · intro l hlen
    simp [parseOverrides, hlen]
  · intro l i s hlen hi hpar hdots
    have hbad : (pySplitDot s).length ≠ 2 := by
      rw [pySplitDot_length]
      omega
    obtain ⟨k, v, hkv⟩ := parseOverridesLoop_missingDot l i s hlen hi hpar hbad
    exact ⟨k, v, by simp [parseOverrides, hlen, hkv]⟩

/-- C4 witness: the odd-length input `["identity.username"]` and the dotless
input `["badkey", "x"]` are both rejected. -/
theorem C4_parse_overrides_witness :
    parseOverrides ["identity.username"] = .error .oddLength ∧
    ∃ k v, parseOverrides ["badkey", "x"] = .error (.missingDot k v) :=
  ⟨C4_parse_overrides.2.1 ["identity.username"] (by decide),
   C4_parse_overrides.2.2 ["badkey", "x"] 0 "badkey" (by decide) rfl
     (by decide) (by decide)⟩

/-- C7: when `--create` and `--non-admin` are both set, the run fails during
argument parsing with the mutual-exclusion error, for every override list
and whatever remote calls the later phases would have made; no phase ever
runs and no remote call is produced. -/
theorem C7_create_non_admin_rejected (overrides : List String)
    (phases : List (String × String × String) → List RemoteCall) :
    runMain true true overrides phases = .error .createNonAdmin := rfl

/-!
### Identity reconciliation (C2, C9)
-/

theorem tenantsFind_ok_find? (st : IdentityState) (name : String) (tn : KTenant)
    (h : tenantsFind st name = .ok tn) :
    st.tenants.find? (fun t => t.name = name) = some tn := by
  unfold tenantsFind at h
  rcases hf : st.tenants.find? (fun t => t.name = name) with _ | t <;>
    rw [hf] at h <;> simp_all

theorem usersFind_ok_find? (st : IdentityState) (name : String) (u : KUser)
    (h : usersFind st name = .ok u) :
    st.users.find? (fun v => v.name = name) = some u := by
  unfold usersFind at h
  rcases hf : st.users.find? (fun v => v.name = name) with _ | v <;>
    rw [hf] at h <;> simp_all

theorem rolesFind_notFound (st : IdentityState) (role_name : String)
    (h : ∀ r ∈ st.roles, r.name ≠ role_name) :
    rolesFind st role_name = .error .notFound := by
  have hf : st.roles.find? (fun r => r.name = role_name) = none :=
    List.find?_eq_none.mpr (fun r hr => by simp [h r hr])
  simp [rolesFind, hf]

/-- C2 counterexample: with no flavor named `m1.nano` in the remote store and
creation allowed, a `Conflict` answer from `flavors.create` propagates out of
`find_or_create_flavor` — the routine does not recover it by a name
lookup. -/
theorem C2_flavor_conflict_propagates :
    findOrCreateFlavor [] none "m1.nano" true 64 1 0 .conflict =
      .error .conflict := rfl

/-- C2 (amended): only the user/tenant routine recovers `Conflict`.  When the
tenant and the user already exist (so both remote create calls answer
`Conflict`), `create_user_with_tenant` succeeds, resolving both by follow-up
name lookups and updating the existing user's password; by contrast,
`find_or_create_flavor` propagates a `Conflict` from its create call. -/
theorem C2_conflict_recovery (st : IdentityState)
    (username password tenant_name ftid fuid : String) (tn : KTenant) (u : KUser)
    (htn : tenantsFind st tenant_name = .ok tn)
    (hu : usersFind st username = .ok u) :
    createUserWithTenant st username password tenant_name ftid fuid =
      .ok (updatePassword st u.id password) ∧
    (∀ (fs : List Flavor) (name : String) (ram vcpus disk : Nat),
      (∀ f ∈ fs, f.name ≠ name) →
      findOrCreateFlavor fs none name true ram vcpus disk .conflict =
        .error .conflict) := by
  constructor
  · have htn' := tenantsFind_ok_find? st tenant_name tn htn
    have hu' := usersFind_ok_find? st username u hu
    have hpt := List.find?_some htn'
    have hpu := List.find?_some hu'
    have hta : st.tenants.any (fun t => t.name = tenant_name) = true :=
      List.any_eq_true.mpr ⟨tn, List.mem_of_find?_eq_some htn', hpt⟩
    have hua : st.users.any (fun v => v.name = username) = true :=
      List.any_eq_true.mpr ⟨u, List.mem_of_find?_eq_some hu', hpu⟩
    simp [createUserWithTenant, tenantsCreate, usersCreate, hta, hua, htn, hu]
  · intro fs name ram vcpus disk hnone
    have hfil : flavorsFindallByName fs name = [] := by
      rw [flavorsFindallByName, List.filter_eq_nil_iff]
      intro f hf
      simp [hnone f hf]
    by_cases hn : name = "" <;>
      simp [findOrCreateFlavor, optTruthy, hfil, hn]

/-- C2 witness: at a state where tenant `demo` and user `alice` both exist,
the routine succeeds and updates alice's password. -/
theorem C2_conflict_recovery_witness :
    createUserWithTenant stIdentityW "alice" "newpw" "demo" "tX" "uX" =
      .ok (updatePassword stIdentityW "u1" "newpw") :=
  (C2_conflict_recovery stIdentityW "alice" "newpw" "demo" "tX" "uX"
    ⟨"t1", "demo", "Tenant for Tempest alice user"⟩
    ⟨"u1", "alice", "pw", "alice@test.com"⟩ rfl rfl).1

/-- C9: with the user and tenant present, a role absent from the deployment
is fatal exactly when `role_required=true` and is skipped (state unchanged)
when `role_required=false`; when the role exists and the user already holds
it, the grant `Conflict` is swallowed and the call succeeds. -/
theorem C9_give_role_to_user (st : IdentityState)
    (username tenant_name role_name : String) (u : KUser) (tn : KTenant)
    (hu : usersFind st username = .ok u)
    (ht : tenantsFind st tenant_name = .ok tn) :
    ((∀ r ∈ st.roles, r.name ≠ role_name) →
      giveRoleToUser st username tenant_name role_name true = .error .notFound ∧
      giveRoleToUser st username tenant_name role_name false = .ok st) ∧
    (∀ r : KRole, rolesFind st role_name = .ok r →
      (tn.id, u.id, r.id) ∈ st.grants →
      ∀ rq : Bool, giveRoleToUser st username tenant_name role_name rq = .ok st) := by
  constructor
  · intro habs
    have hr := rolesFind_notFound st role_name habs
    constructor <;> simp [giveRoleToUser, hu, ht, hr]
  · intro r hr hgrant rq
    have hadd : tenantsAddUser st tn.id u.id r.id = .error .conflict := by
      simp [tenantsAddUser, hgrant]
    simp [giveRoleToUser, hu, ht, hr, hadd]

/-- C9 witness: `alice` already holds `admin` in `demo`, so the grant
conflict is swallowed and the call succeeds without changing the state. -/
theorem C9_give_role_to_user_witness :
    giveRoleToUser stIdentityW "alice" "demo" "admin" true = .ok stIdentityW :=
  (C9_give_role_to_user stIdentityW "alice" "demo" "admin"
    ⟨"u1", "alice", "pw", "alice@test.com"⟩
    ⟨"t1", "demo", "Tenant for Tempest alice user"⟩ rfl rfl).2
    ⟨"r1", "admin"⟩ rfl (by decide) true

/-!
### Flavor reconciliation (C5, C6)
-/

theorem findallByName_head?_eq_find? (fs : List Flavor) (n : String) :
    (flavorsFindallByName fs n).head? = fs.find? (fun f => f.name = n) := by
  induction fs with
  | nil => rfl
  | cons f fs ih =>
      by_cases h : f.name = n
      · simp [flavorsFindallByName, List.filter_cons, List.find?_cons, h]
      · simp only [flavorsFindallByName, List.filter_cons, List.find?_cons, h] at ih ⊢
        simp [h, ih]

/-- C5: if the remote store holds a flavor named `m1.nano` and no
`flavor_ref` was configured (no id to look up), `find_or_create_flavor`
returns the id of the first name match in the service's returned order and
issues no creation call, whatever `allow_creation` and whatever the create
call would have answered. -/
theorem C5_existing_flavor_reused (fs : List Flavor) (f : Flavor)
    (allow_creation : Bool) (ram vcpus disk : Nat) (resp : CreateResp)
    (hf : fs.find? (fun g => g.name = "m1.nano") = some f) :
    findOrCreateFlavor fs none "m1.nano" allow_creation ram vcpus disk resp =
      .ok (f.id, false) := by
  have hh : (flavorsFindallByName fs "m1.nano").head? = some f := by
    rw [findallByName_head?_eq_find?, hf]
  simp [findOrCreateFlavor, optTruthy, hh]

/-- C5 witness: two same-named flavors; the first one in the returned order
wins and no creation happens even with creation allowed and a conflicting
create response. -/
theorem C5_existing_flavor_reused_witness :
    findOrCreateFlavor [⟨"42", "m1.nano"⟩, ⟨"43", "m1.nano"⟩] none "m1.nano"
      true 64 1 0 .conflict = .ok ("42", false) :=
  C5_existing_flavor_reused [⟨"42", "m1.nano"⟩, ⟨"43", "m1.nano"⟩]
    ⟨"42", "m1.nano"⟩ true 64 1 0 .conflict rfl

/-- C6: with no flavor named `m1.nano`, no match for the supplied id (if
any), and `allow_creation=false`, `find_or_create_flavor` fails with the
resource-missing error naming the flavor, whatever the create call would
have answered (no creation call is issued). -/
theorem C6_flavor_missing_no_creation (fs : List Flavor)
    (flavor_id : Option String) (ram vcpus disk : Nat) (resp : CreateResp)
    (hid : ∀ fid, flavor_id = some fid → flavorsFindallById fs fid = [])
    (hname : ∀ f ∈ fs, f.name ≠ "m1.nano") :
    findOrCreateFlavor fs flavor_id "m1.nano" false ram vcpus disk resp =
      .error (.resourceMissing "m1.nano") := by
  have hfil : flavorsFindallByName fs "m1.nano" = [] := by
    rw [flavorsFindallByName, List.filter_eq_nil_iff]
    intro f hf
    simp [hname f hf]
  rcases flavor_id with _ | fid
  · simp [findOrCreateFlavor, optTruthy, hfil]
  · simp [findOrCreateFlavor, optTruthy, hfil, hid fid rfl]

/-- C6 witness: a store with only `m1.small`, a stale id `55`, creation
disallowed. -/
theorem C6_flavor_missing_no_creation_witness :
    findOrCreateFlavor [⟨"7", "m1.small"⟩] (some "55") "m1.nano" false 64 1 0
      .conflict = .error (.resourceMissing "m1.nano") :=
  C6_flavor_missing_no_creation [⟨"7", "m1.small"⟩] (some "55") 64 1 0 .conflict
    (fun fid h => by cases h; rfl) (by decide)

/-!
### Network reconciliation (C8)
-/

theorem find?_eq_some_of_unique {α : Type} (p : α → Bool) :
    ∀ (l : List α) (a : α), a ∈ l → p a = true →
      (∀ b ∈ l, p b = true → b = a) → l.find? p = some a := by
  intro l
  induction l with
  | nil => intro a ha _ _; cases ha
  | cons x xs ih =>
      intro a ha hpa huniq
      by_cases hx : p x = true
      · have hxa : x = a := huniq x (by simp) hx
        subst hxa
        simp [List.find?_cons, hx]
      · rw [List.find?_cons_of_neg _ (by simpa using hx)]
        rcases List.mem_cons.mp ha with h | h
        · subst h; exact absurd hpa hx
        · exact ih a h hpa (fun b hb hpb => huniq b (List.mem_cons_of_mem _ hb) hpb)

theorem setValue_lookup_other (vs : List ((String × String) × String))
    (sk sk' : String × String) (v : String) (hne : sk' ≠ sk) :
    ((setValue vs sk v).find? (fun p => p.1 = sk')).map (·.2)
      = (vs.find? (fun p => p.1 = sk')).map (·.2) := by
  induction vs with
  | nil => simp [setValue, List.find?_cons, Ne.symm hne]
  | cons hd tl ih =>
      obtain ⟨k0, v0⟩ := hd
      by_cases h : k0 = sk
      · subst h
        simp [setValue, List.find?_cons, Ne.symm hne]
      · by_cases h2 : k0 = sk'
        · subst h2
          simp [setValue, h, List.find?_cons]
        · simp [setValue, h, h2, List.find?_cons, ih]

theorem set_lookup_other (c : TempestConf) (sec key value : String) (pr : Bool)
    (s k : String) (hne : (s, k) ≠ (sec, key)) :
    ((c.set sec key value pr).2).lookup s k = c.lookup s k := by
  unfold TempestConf.set TempestConf.lookup
  by_cases hs : c.hasSection sec = true <;> cases pr <;> simp [hs] <;>
    first
      | (split <;> simp [setValue_lookup_other _ _ _ _ hne])
      | simp [setValue_lookup_other _ _ _ _ hne]

theorem set_lookup_self_unpinned (c : TempestConf) (sec key value : String)
    (h : (sec, key) ∉ c.priority_sectionkeys) :
    ((c.set sec key value false).2).lookup sec key = some value := by
  unfold TempestConf.set TempestConf.lookup
  by_cases hs : c.hasSection sec = true <;>
    simp [hs, h, setValue_lookup_self]

/-- C8: with no network id supplied and the listing holding exactly one
network that is external with a non-empty subnet list, the neutron branch of
`create_tempest_networks` issues no network or subnet creation call and
writes that network's id as `[network] public_network_id`, whatever
`create_network` is; when the network's name is non-empty the call also
completes without error. -/
theorem C8_single_external_network_selected (conf : TempestConf)
    (networks : List NeutronNetwork) (create_network : Bool)
    (createdNet : NeutronNetwork) (n : NeutronNetwork)
    (hmem : n ∈ networks) (hext : n.router_external = true)
    (hsub : n.subnets ≠ [])
    (huniq : ∀ m ∈ networks, m.router_external = true → m.subnets ≠ [] → m = n)
    (hpin : ("network", "public_network_id") ∉ conf.priority_sectionkeys) :
    (createTempestNetworksNeutron conf networks create_network none createdNet).2.2
      = [] ∧
    ((createTempestNetworksNeutron conf networks create_network none
        createdNet).2.1).lookup "network" "public_network_id" = some n.id ∧
    (n.name ≠ "" →
      (createTempestNetworksNeutron conf networks create_network none
        createdNet).1 = none) := by
  have hfind : networks.find? (fun m => m.router_external && !m.subnets.isEmpty)
      = some n := by
    apply find?_eq_some_of_unique _ _ _ hmem
    · simp [hext, hsub]
    · intro m hm hpm
      simp only [Bool.and_eq_true, Bool.not_eq_true'] at hpm
      exact huniq m hm hpm.1 (by simpa [List.isEmpty_iff] using hpm.2)
  have hrun : createTempestNetworksNeutron conf networks create_network none
      createdNet = finishNeutronNetworks conf n.id n.name [] := by
    simp [createTempestNetworksNeutron, optTruthy, hfind]
  rw [hrun]
  unfold finishNeutronNetworks
  have h1 := set_lookup_self_unpinned conf "network" "public_network_id" n.id hpin
  by_cases hname : n.name = ""
  · simp [hname, h1]
  · have h2 := set_lookup_other
      (conf.set "network" "public_network_id" n.id).2
      "compute" "fixed_network_name" n.name false
      "network" "public_network_id" (by decide)
    simp [hname, h1, h2]

/-- C8 witness: of two networks exactly the second is external with a
subnet; it is selected, nothing is created, and the call completes. -/
theorem C8_single_external_network_selected_witness :
    (createTempestNetworksNeutron TempestConf.empty netsW true none
       netCreatedW).2.2 = [] ∧
    ((createTempestNetworksNeutron TempestConf.empty netsW true none
        netCreatedW).2.1).lookup "network" "public_network_id" = some "n2" ∧
    (createTempestNetworksNeutron TempestConf.empty netsW true none
       netCreatedW).1 = none := by
  have h := C8_single_external_network_selected TempestConf.empty netsW true
    netCreatedW ⟨"n2", "public", true, ["s1"]⟩ (by decide) rfl (by decide)
    (by decide) (by decide)
  exact ⟨h.1, h.2.1, h.2.2 (by decide)⟩

/-!
### Discovered-service annotation (C10)
-/

/-- C10: `configure_discovered_services` completes exactly when all four
`SERVICE_VERSIONS` services (image, identity, volume, compute) are present
in the discovered mapping; if any of them is absent the call fails with a
`KeyError`, even though the availability and extension loops tolerate absent
services. -/
theorem C10_versions_require_all_services (conf : TempestConf)
    (services : List (String × ServiceInfo)) :
    ((∀ s ∈ ["image", "identity", "volume", "compute"],
        (lookupService services s).isSome = true) →
      (configureDiscoveredServices conf services).isOk = true) ∧
    (∀ s ∈ ["image", "identity", "volume", "compute"],
      lookupService services s = none →
      ∃ s', configureDiscoveredServices conf services = .error (.keyError s')) := by
  constructor
  · intro h
    obtain ⟨i1, h1⟩ := Option.isSome_iff_exists.mp (h "image" (by simp))
    obtain ⟨i2, h2⟩ := Option.isSome_iff_exists.mp (h "identity" (by simp))
    obtain ⟨i3, h3⟩ := Option.isSome_iff_exists.mp (h "volume" (by simp))
    obtain ⟨i4, h4⟩ := Option.isSome_iff_exists.mp (h "compute" (by simp))
    simp [configureDiscoveredServices, setServiceVersions, SERVICE_VERSIONS,
      setServiceVersionsLoop, h1, h2, h3, h4, Except.isOk, Except.toBool]
  · intro s hs habs
    rcases e1 : lookupService services "image" with _ | i1
    · exact ⟨"image", by simp [configureDiscoveredServices, setServiceVersions,
        SERVICE_VERSIONS, setServiceVersionsLoop, e1]⟩
    rcases e2 : lookupService services "identity" with _ | i2
    · exact ⟨"identity", by simp [configureDiscoveredServices,
        setServiceVersions, SERVICE_VERSIONS, setServiceVersionsLoop, e1, e2]⟩
    rcases e3 : lookupService services "volume" with _ | i3
    · exact ⟨"volume", by simp [configureDiscoveredServices, setServiceVersions,
        SERVICE_VERSIONS, setServiceVersionsLoop, e1, e2, e3]⟩
    rcases e4 : lookupService services "compute" with _ | i4
    · exact ⟨"compute", by simp [configureDiscoveredServices,
        setServiceVersions, SERVICE_VERSIONS, setServiceVersionsLoop,
        e1, e2, e3, e4]⟩
    simp only [List.mem_cons, List.not_mem_nil, or_false] at hs
    rcases hs with rfl | rfl | rfl | rfl <;> simp_all

/-- C10 witness: with all four services discovered the call completes; with
`compute` missing it fails with a `KeyError`. -/
theorem C10_versions_require_all_services_witness :
    (configureDiscoveredServices TempestConf.empty servicesAllW).isOk = true ∧
    (∃ s', configureDiscoveredServices TempestConf.empty servicesNoComputeW
      = .error (.keyError s')) :=
  ⟨(C10_versions_require_all_services TempestConf.empty servicesAllW).1
      (by decide),
   (C10_versions_require_all_services TempestConf.empty servicesNoComputeW).2
      "compute" (by decide) (by decide)⟩
